import Mathlib

/-!
Verification of the whatsapp-order-notification webhook handler.

The development shallowly embeds the JavaScript sources:
  actions/order-notification/eventValidator.js
  actions/order-notification/orderDataExtractor.js  (bundled with phoneUtils.js
     and twilioService.js in the provided sources)
  actions/order-notification/messageGenerator.js
  actions/order-notification/index.js  (the orchestrator, exporting main)

Loose JavaScript payload values are embedded as the inductive type Json
below, with JavaScript truthiness made explicit.  Machine-level collaborators
(the Twilio SDK call, the logger) are treated as oracles: the outcome of the
single outbound provider call is an explicit input of the embedded functions.
String primitives are embedded through character-list helpers so that every
definition evaluates by kernel reduction.
-/

namespace OrderNotif

/-- JavaScript-like payload values.  The constructor null models both the
JavaScript null and undefined (the embedded code never distinguishes them:
both are falsy and field access on them is guarded by optional chaining in
the source).  Numbers are embedded as integers; no fractional payload value
is inspected by the code. -/
inductive Json where
  | null
  | bool (b : Bool)
  | num (n : Int)
  | str (s : String)
  | arr (elems : List Json)
  | obj (fields : List (String × Json))

/-- JavaScript truthiness: null/undefined, false, 0 and the empty string are
falsy; every object and array (including empty ones) is truthy. -/
def Json.truthy : Json → Bool
  | .null => false
  | .bool b => b
  | .num n => n != 0
  | .str s => !s.data.isEmpty
  | .arr _ => true
  | .obj _ => true

/-- Field access with optional chaining: reading a field of anything that is
not an object yields undefined (embedded as null), as the optional chains in
the source do. -/
def jget (j : Json) (k : String) : Json :=
  match j with
  | .obj fields =>
    match fields.lookup k with
    | some v => v
    | none => .null
  | _ => .null

/-- Index access on arrays, as in tracks[0]; indexing anything else (or out
of range) yields undefined, embedded as null. -/
def jidx (j : Json) (i : Nat) : Json :=
  match j with
  | .arr elems => elems.getD i .null
  | _ => .null

/-- The JavaScript logical-or on payload values: a or-else b evaluates to a
when a is truthy and to b otherwise. -/
def jsOr (a b : Json) : Json :=
  if a.truthy then a else b

mutual

/-- String conversion as performed by JavaScript template interpolation. -/
def jsDisplay : Json → String
  | .null => "undefined"
  | .bool b => if b then "true" else "false"
  | .num n => toString n
  | .str s => s
  | .obj _ => "[object Object]"
  | .arr elems => String.intercalate "," (jsDisplayList elems)

/-- Display of the members of an array value, in order. -/
def jsDisplayList : List Json → List String
  | [] => []
  | j :: rest => jsDisplay j :: jsDisplayList rest

end

/-- Substring test over character lists, used to embed the JavaScript
String.prototype.includes. -/
def charsInclude (pat : List Char) : List Char → Bool
  | [] => pat.isEmpty
  | c :: rest => pat.isPrefixOf (c :: rest) || charsInclude pat rest

/-- The JavaScript substring test: jsIncludes s pat embeds s.includes pat. -/
def jsIncludes (s pat : String) : Bool :=
  charsInclude pat.data s.data

/-- Prefix test on strings by character list, embedding startsWith. -/
def strStartsWith (s pre : String) : Bool :=
  pre.data.isPrefixOf s.data

/-- Drop of the first n characters of a string, embedding substring 2. -/
def strDrop (s : String) (n : Nat) : String :=
  String.mk (s.data.drop n)

/-- Character count of a string, embedding the JavaScript length. -/
def strLen (s : String) : Nat :=
  s.data.length

/-- Whitespace trim at both ends, embedding the JavaScript trim. -/
def strTrim (s : String) : String :=
  String.mk (((s.data.dropWhile Char.isWhitespace).reverse.dropWhile Char.isWhitespace).reverse)

/-! ## Phone utilities (phoneUtils.js) -/

/-- The cleaning step of formatPhoneNumber: the source applies the regex
replace removing every character that is neither a digit nor a plus sign.
Note that the regex character class keeps every plus sign, wherever it
occurs, although the adjacent source comment announces keeping only a
leading one. -/
def cleanPhone (s : String) : String :=
  String.mk (s.data.filter (fun c => c.isDigit || c == '+'))

/-- formatPhoneNumber from phoneUtils.js: normalizes a free-form telephone
string toward E.164.  Falsy input (the empty string embeds null, undefined
and the empty string) yields null, embedded as none. -/
def formatPhoneNumber (phoneNumber : String) : Option String :=
  if phoneNumber = "" then
    none
  else
    let cleaned := cleanPhone phoneNumber
    if strStartsWith cleaned "+" then
      some cleaned
    else if strStartsWith cleaned "00" then
      some ("+" ++ strDrop cleaned 2)
    else if strLen cleaned = 10 then
      some ("+1" ++ cleaned)
    else
      some ("+" ++ cleaned)

/-- formatPhoneForWhatsApp from phoneUtils.js: formats and then prefixes the
channel tag unless already present. -/
def formatPhoneForWhatsApp (phoneNumber : String) : Option String :=
  match formatPhoneNumber phoneNumber with
  | none => none
  | some formatted =>
    some (if strStartsWith formatted "whatsapp:" then formatted else "whatsapp:" ++ formatted)

/-- extractPhoneNumberFromOrder from phoneUtils.js: scan the addresses array
for the first entry with a truthy telephone, then fall back to
billing_address.telephone, then shipping_address.telephone, else null.
The source iterates addresses only when it is a non-empty array-like value;
for a non-array value the loop finds no telephone field, so the fallbacks
apply, as in the catch-all branch here. -/
def extractPhoneNumberFromOrder (orderData : Json) : Json :=
  if !orderData.truthy then
    .null
  else
    let fromAddresses :=
      match jget orderData "addresses" with
      | .arr addrs =>
        (addrs.find? (fun a => (jget a "telephone").truthy)).map (fun a => jget a "telephone")
      | _ => none
    match fromAddresses with
    | some t => t
    | none =>
      let billing := jget (jget orderData "billing_address") "telephone"
      if billing.truthy then billing
      else
        let shipping := jget (jget orderData "shipping_address") "telephone"
        if shipping.truthy then shipping else .null

/-! ## Error responses (actions/utils.js) -/

/-- Body of a failure response: a single error message field. -/
structure ErrorBody where
  error : String

/-- Modelled from the spec: the helper errorResponse lives in
actions/utils.js, which is not among the provided sources (only its callers
are).  Per spec section 6, a failure result is an error-wrapped record
carrying statusCode and a body whose error field holds the message; this
structure is that inner record, and the orchestrator result type below wraps
it in the error field. -/
structure ErrorResponse where
  statusCode : Nat
  body : ErrorBody

/-- Modelled from the spec: builds the failure record for a status code and
message, as the utils.js helper does (the logger argument only logs). -/
def errorResponse (statusCode : Nat) (message : String) : ErrorResponse :=
  ⟨statusCode, ⟨message⟩⟩

/-! ## Event validator (eventValidator.js) -/

/-- The four allowed Commerce event types, from eventValidator.js. -/
def ALLOWED_EVENT_TYPES : List String :=
  [ "com.adobe.commerce.observer.sales_order_place_after"
  , "com.adobe.commerce.observer.sales_order_save_after"
  , "com.adobe.commerce.observer.sales_order_shipment_save_after"
  , "com.adobe.commerce.observer.sales_order_cancel_after" ]

/-- Invocation parameters of the action: the CloudEvents envelope fields
merged with the operational parameters, as delivered to main.  String fields
use the empty string to embed an absent (or otherwise falsy) value. -/
structure Params where
  type : String := ""
  source : String := ""
  challenge : String := ""
  data : Json := .null
  TWILIO_ACCOUNT_SID : String := ""
  TWILIO_AUTH_TOKEN : String := ""
  TWILIO_WHATSAPP_FROM : String := ""

/-- validateCloudEventStructure: both type and source must be truthy. -/
def validateCloudEventStructure (params : Params) : Option ErrorResponse :=
  if params.type = "" ∨ params.source = "" then
    some (errorResponse 400 "Invalid event structure")
  else
    none

/-- validateCommerceEvent: the type must contain the vendor namespace.  A
source not containing the namespace only produces a warning in the source
code (a log line, not modelled) and does not fail. -/
def validateCommerceEvent (params : Params) : Option ErrorResponse :=
  let isCommerceEvent := params.type ≠ "" ∧ jsIncludes params.type "com.adobe.commerce" = true
  if ¬isCommerceEvent then
    some (errorResponse 400 "Invalid event source - not a Commerce event")
  else
    none

/-- validateEventType: the type must be in the allow-list.  The returned
message carries the offending type; the allow-list appears only in the
logged line, which is not part of the returned response. -/
def validateEventType (eventType : String) : Option ErrorResponse :=
  if eventType ∉ ALLOWED_EVENT_TYPES then
    some (errorResponse 400 ("Unauthorized event type: " ++ eventType))
  else
    none

/-- validateEvent: the three checks in order, first failure short-circuits. -/
def validateEvent (params : Params) : Option ErrorResponse :=
  match validateCloudEventStructure params with
  | some e => some e
  | none =>
    match validateCommerceEvent params with
    | some e => some e
    | none => validateEventType params.type

/-! ## Order data extractor (orderDataExtractor.js) -/

/-- extractShipmentData: data.value.shipment, or null when falsy. -/
def extractShipmentData (data : Json) : Json :=
  jsOr (jget (jget data "value") "shipment") .null

/-- extractOrderData: ordered fallback chain resolving the order payload.
For a shipment event with shipment data, shipment.order comes first; in all
cases data.value.order is preferred to data.value, with null as the final
fallback. -/
def extractOrderData (data shipmentData : Json) (isShipmentEvent : Bool) : Json :=
  if isShipmentEvent && shipmentData.truthy then
    jsOr (jget shipmentData "order")
      (jsOr (jget (jget data "value") "order") (jsOr (jget data "value") .null))
  else
    jsOr (jget (jget data "value") "order") (jsOr (jget data "value") .null)

/-- Canonical order fields derived by extractOrderInfo. -/
structure OrderInfo where
  orderNumber : Json
  customerEmail : Json
  customerName : String
  orderTotal : Json
  orderCurrency : Json
  orderStatus : Json

/-- extractOrderInfo: derives the canonical order fields; the customer name
interpolates first and last name (falsy parts become empty) and trims. -/
def extractOrderInfo (orderData : Json) : OrderInfo :=
  { orderNumber := jsOr (jget orderData "increment_id") (jget orderData "entity_id")
    customerEmail := jget orderData "customer_email"
    customerName :=
      strTrim
        ((if (jget orderData "customer_firstname").truthy then
            jsDisplay (jget orderData "customer_firstname") else "")
         ++ " "
         ++ (if (jget orderData "customer_lastname").truthy then
              jsDisplay (jget orderData "customer_lastname") else ""))
    orderTotal := jget orderData "grand_total"
    orderCurrency := jget orderData "order_currency_code"
    orderStatus := jsOr (jget orderData "status") (jget orderData "state") }

/-- extractEventData: resolves order and shipment data from the envelope or
fails with the 400 responses of the source. -/
def extractEventData (params : Params) (eventType : String) :
    Except ErrorResponse (Json × Json) :=
  let isShipmentEvent := jsIncludes eventType "sales_order_shipment_save_after"
  let shipmentData := if isShipmentEvent then extractShipmentData params.data else .null
  let orderData := extractOrderData params.data shipmentData isShipmentEvent
  if !orderData.truthy then
    if isShipmentEvent && !shipmentData.truthy then
      .error (errorResponse 400 "Missing shipment data")
    else
      .error (errorResponse 400 "Missing order data")
  else
    .ok (orderData, shipmentData)

/-! ## Message generator (messageGenerator.js) -/

/-- generateOrderPlacedMessage: total and currency are raw payload values
interpolated into the template. -/
def generateOrderPlacedMessage (customerName orderNumber : String)
    (orderTotal orderCurrency : Json) : String :=
  "Hi " ++ customerName ++ ", your order #" ++ orderNumber ++ " for "
    ++ jsDisplay orderTotal ++ " " ++ jsDisplay orderCurrency
    ++ " has been confirmed. Thank you for your purchase!"

/-- generateOrderStatusChangeMessage. -/
def generateOrderStatusChangeMessage (customerName orderNumber : String)
    (orderStatus : Json) : String :=
  "Hi " ++ customerName ++ ", your order #" ++ orderNumber
    ++ " status has been updated to " ++ jsDisplay orderStatus ++ "."

/-- generateShipmentMessage: the tracking clause appears exactly when the
tracking number argument is truthy. -/
def generateShipmentMessage (customerName orderNumber : String)
    (trackingNumber : Json) : String :=
  if trackingNumber.truthy then
    "Hi " ++ customerName ++ ", your order #" ++ orderNumber
      ++ " has been shipped! Track your package using tracking number "
      ++ jsDisplay trackingNumber ++ "."
  else
    "Hi " ++ customerName ++ ", your order #" ++ orderNumber ++ " has been shipped!"

/-- generateCancellationMessage. -/
def generateCancellationMessage (customerName orderNumber : String) : String :=
  "Hi " ++ customerName ++ ", your order #" ++ orderNumber
    ++ " has been cancelled. If you have any questions, please contact us."

/-- The optional chain of messageGenerator.js lines 79-80: the first track
entry's track_number, or else its number (undefined, embedded as null, when
there is no shipment data or no track). -/
def firstTrackingValue (shipmentData : Json) : Json :=
  jsOr (jget (jidx (jget shipmentData "tracks") 0) "track_number")
    (jget (jidx (jget shipmentData "tracks") 0) "number")

/-- generateMessageByEventType: dispatch by exact equality on the four full
event-type constants, with the order-placed template as fallback. -/
def generateMessageByEventType (eventType : String) (orderData : Json)
    (customerName orderNumber : String) (shipmentData : Json) : String :=
  let isOrderCancelled := eventType = "com.adobe.commerce.observer.sales_order_cancel_after"
  let isOrderPlaced := eventType = "com.adobe.commerce.observer.sales_order_place_after"
  let isShipmentCreated := eventType = "com.adobe.commerce.observer.sales_order_shipment_save_after"
  let isOrderSaved := eventType = "com.adobe.commerce.observer.sales_order_save_after"
  let orderTotal := jget orderData "grand_total"
  let orderCurrency := jget orderData "order_currency_code"
  let orderStatus := jsOr (jget orderData "status") (jget orderData "state")
  if isOrderCancelled then
    generateCancellationMessage customerName orderNumber
  else if isOrderPlaced then
    generateOrderPlacedMessage customerName orderNumber orderTotal orderCurrency
  else if isShipmentCreated then
    generateShipmentMessage customerName orderNumber (firstTrackingValue shipmentData)
  else if isOrderSaved ∧ orderStatus.truthy = true then
    generateOrderStatusChangeMessage customerName orderNumber orderStatus
  else
    generateOrderPlacedMessage customerName orderNumber orderTotal orderCurrency

/-! ## Twilio service (twilioService.js) -/

/-- The Twilio configuration taken from the request parameters; the empty
string embeds an absent credential. -/
structure TwilioConfig where
  accountSid : String
  authToken : String
  fromNumber : String

/-- The resolved value of a successful provider message-create call. -/
structure TwilioMessage where
  sid : String
  status : String

/-- Oracle for the single outbound provider call: it either resolves with a
message record or throws, carrying the message text of the thrown error
(the empty string embeds a thrown value with no or an empty message). -/
inductive ProviderOutcome where
  | resolves (message : TwilioMessage)
  | throwsWith (message : String)

/-- The value returned by sendWhatsAppMessage. -/
structure SendResult where
  success : Bool
  messageSid : Option String := none
  status : Option String := none
  error : Option String := none
deriving DecidableEq

/-- sendWhatsAppMessage from twilioService.js: missing configuration returns
the fixed degraded-mode failure before anything else; inside the try block a
non-string recipient makes the replace call of the formatter throw a
TypeError, a null formatting result raises the invalid-format error, and a
provider throw is caught, every caught error message passing through the
or-else with the fixed fallback text for an empty message.  The function
never propagates an exception: it is total and always returns a SendResult. -/
def sendWhatsAppMessage (config : TwilioConfig) (toPhoneNumber : Json)
    (provider : ProviderOutcome) : SendResult :=
  if config.accountSid = "" ∨ config.authToken = "" ∨ config.fromNumber = "" then
    { success := false
      error := some "Twilio configuration missing - WhatsApp notifications will not be sent" }
  else
    match toPhoneNumber with
    | .str s =>
      match formatPhoneForWhatsApp s with
      | none => { success := false, error := some "Invalid phone number format" }
      | some _ =>
        match provider with
        | .resolves m =>
          { success := true, messageSid := some m.sid, status := some m.status }
        | .throwsWith msg =>
          { success := false
            error := some (if msg = "" then "Unknown Twilio error" else msg) }
    | j =>
      if j.truthy then
        { success := false, error := some "phoneNumber.replace is not a function" }
      else
        { success := false, error := some "Invalid phone number format" }

/-! ## Orchestrator (index.js) -/

/-- Body of the 200 success response built by the orchestrator; the
whatsappError field is spread in exactly when the send error is truthy. -/
structure SuccessBody where
  success : Bool
  message : String
  orderNumber : Json
  customerPhone : Json
  whatsappSent : Bool
  whatsappError : Option String

/-- Body of a 200 response of main: the challenge echo or a success body. -/
inductive MainBody where
  | challenge (challenge : String)
  | success (body : SuccessBody)

/-- The orchestrator result: either the error-wrapped failure shape of
errorResponse, or a response with statusCode and body. -/
inductive MainResult where
  | failure (e : ErrorResponse)
  | response (statusCode : Nat) (body : MainBody)

/-- Whether execution of sendWhatsAppMessage reaches the provider
message-create call: configuration complete and the recipient formats. -/
def providerReached (config : TwilioConfig) (toPhoneNumber : Json) : Bool :=
  if config.accountSid = "" ∨ config.authToken = "" ∨ config.fromNumber = "" then
    false
  else
    match toPhoneNumber with
    | .str s => (formatPhoneForWhatsApp s).isSome
    | _ => false

/-- main from index.js: challenge echo, then validation, extraction, phone
lookup, message generation and the provider call, building the response.
The second component records whether the provider call was reached. -/
def main (params : Params) (provider : ProviderOutcome) : MainResult × Bool :=
  if params.challenge ≠ "" then
    (.response 200 (.challenge params.challenge), false)
  else
    match validateEvent params with
    | some e => (.failure e, false)
    | none =>
      let eventType := params.type
      match extractEventData params eventType with
      | .error e => (.failure e, false)
      | .ok (orderData, shipmentData) =>
        let orderInfo := extractOrderInfo orderData
        let customerPhone := extractPhoneNumberFromOrder orderData
        if !customerPhone.truthy then
          (.failure (errorResponse 400 "Customer phone number not found"), false)
        else
          let _message := generateMessageByEventType eventType orderData
            orderInfo.customerName (jsDisplay orderInfo.orderNumber) shipmentData
          let twilioConfig : TwilioConfig :=
            ⟨params.TWILIO_ACCOUNT_SID, params.TWILIO_AUTH_TOKEN, params.TWILIO_WHATSAPP_FROM⟩
          let twilioResult := sendWhatsAppMessage twilioConfig customerPhone provider
          let responseBody : SuccessBody :=
            { success := true
              message := "Order notification processed"
              orderNumber := orderInfo.orderNumber
              customerPhone := customerPhone
              whatsappSent := twilioResult.success
              whatsappError :=
                match twilioResult.error with
                | some e => if e = "" then none else some e
                | none => none }
          (.response 200 (.success responseBody), providerReached twilioConfig customerPhone)

example : formatPhoneNumber "+14155552671" = some "+14155552671" := by decide
example : formatPhoneNumber "001234567890" = some "+1234567890" := by decide
example : formatPhoneNumber "1234567890" = some "+11234567890" := by decide
example : formatPhoneNumber "abcdef" = some "+" := by decide
example : formatPhoneNumber "123+456" = some "+123+456" := by decide
example : formatPhoneNumber "123456789+" = some "+1123456789+" := by decide
example : formatPhoneForWhatsApp "abcdef" = some "whatsapp:+" := by decide
example : jsIncludes "com.adobe.commerce.observer.sales_order_place_after" "com.adobe.commerce" = true := by decide
example : jsIncludes "urn:acme:store" "com.adobe.commerce" = false := by decide

/-! ## Helper lemmas -/

/-- Field access on a falsy value yields null. -/
lemma jget_of_falsy {v : Json} (h : v.truthy = false) (k : String) : jget v k = .null := by
  cases v <;> simp_all [Json.truthy, jget]

/-- The or-else of a falsy value is its right argument. -/
lemma jsOr_of_falsy {a : Json} (h : a.truthy = false) (b : Json) : jsOr a b = b := by
  simp [jsOr, h]

/-- The or-else of a truthy value is the value itself. -/
lemma jsOr_of_truthy {a : Json} (h : a.truthy = true) (b : Json) : jsOr a b = a := by
  simp [jsOr, h]

/-- A non-empty input always reaches one of the four result branches of
formatPhoneNumber, each of which returns a value. -/
lemma formatPhoneNumber_isSome {s : String} (h : s ≠ "") :
    (formatPhoneNumber s).isSome = true := by
  simp only [formatPhoneNumber, h, if_false, ite_false]
  split_ifs <;> rfl

/-! ## C10 -/

/-- C10: formatPhoneNumber returns null exactly on null/undefined/empty
input (embedded as the empty string); every non-empty input yields a value,
an all-letter input yields the bare plus sign, and formatPhoneForWhatsApp
turns it into the channel tag with no digits rather than null. -/
theorem c10_formatPhoneNumber_total (s : String) :
    (formatPhoneNumber s = none ↔ s = "") ∧
    (s ≠ "" → (formatPhoneNumber s).isSome = true) ∧
    formatPhoneNumber "abcdef" = some "+" ∧
    formatPhoneForWhatsApp "abcdef" = some "whatsapp:+" := by
  refine ⟨⟨?_, ?_⟩, fun h => formatPhoneNumber_isSome h, by decide, by decide⟩
  · intro h
    by_contra hs
    have := formatPhoneNumber_isSome hs
    rw [h] at this
    simp at this
  · intro h
    simp [formatPhoneNumber, h]

/-- C10 witness: the theorem applied at the concrete input 5. -/
theorem c10_witness : (formatPhoneNumber "5").isSome = true :=
  (c10_formatPhoneNumber_total "5").2.1 (by decide)

/-! ## C3 -/

/-- C3: evaluation of the code at the failing input.  The cleaned form of
the input 123456789+ is not a string of ten digits (it holds nine digits and
a plus sign that the cleaning step keeps), does not start with a plus sign
or two zeros, yet the code prepends the country code +1 because it tests the
character count of the cleaned string, not that it consists of exactly ten
digits: the claimed rule 5 would not apply and rule 6 would give
+123456789+ instead. -/
theorem c3_failing_input_eval :
    formatPhoneNumber "123456789+" = some "+1123456789+" ∧
    (cleanPhone "123456789+").data.all Char.isDigit = false ∧
    strLen (cleanPhone "123456789+") = 10 ∧
    strStartsWith (cleanPhone "123456789+") "+" = false ∧
    strStartsWith (cleanPhone "123456789+") "00" = false ∧
    some "+1123456789+" ≠ some ("+" ++ cleanPhone "123456789+") := by
  refine ⟨by decide, by decide, by decide, by decide, by decide, by decide⟩

/-! ## C7 -/

/-- C7: evaluation of the code at the failing input.  The regex character
class of the cleaning step keeps every plus sign, so a non-leading plus sign
of the input survives into the result, contradicting the claim (and the
source comment above the replace call) that only a leading plus sign is
kept. -/
theorem c7_failing_input_eval :
    formatPhoneNumber "123+456" = some "+123+456" ∧
    (cleanPhone "123+456").data.any (fun c => c == '+') = true ∧
    (("+123+456" : String).data.drop 1).all Char.isDigit = false := by
  refine ⟨by decide, by decide, by decide⟩

/-! ## C1 -/

/-- C1 counterexample: with complete configuration and a well-formed
recipient, a provider throw whose error message is empty is caught, but the
returned error is the fixed fallback text, not the thrown (empty) message as
the claim states. -/
theorem c1_counterexample :
    sendWhatsAppMessage ⟨"AC123", "token", "whatsapp:+14155238886"⟩
      (Json.str "+15551234567") (.throwsWith "") =
      { success := false, error := some "Unknown Twilio error" } ∧
    some "Unknown Twilio error" ≠ some ("" : String) := by
  exact ⟨rfl, by decide⟩

/-- C1 amended: sendWhatsAppMessage never propagates an exception (it is a
total function into SendResult).  Missing configuration returns the fixed
degraded-mode failure for every provider behavior, without reaching the
provider; with complete configuration and a recipient that formats, a
provider resolution returns success with messageSid and status, and a
provider throw is caught and returned as a failure whose error is the thrown
message, except that an empty thrown message is replaced by the fixed text
Unknown Twilio error; a recipient that does not format is caught the same
way with the message Invalid phone number format. -/
theorem c1_send_behavior (config : TwilioConfig) (s : String)
    (provider : ProviderOutcome) (m : TwilioMessage) (msg : String) :
    ((config.accountSid = "" ∨ config.authToken = "" ∨ config.fromNumber = "") →
      sendWhatsAppMessage config (Json.str s) provider =
        { success := false
          error := some "Twilio configuration missing - WhatsApp notifications will not be sent" })
  ∧ (¬(config.accountSid = "" ∨ config.authToken = "" ∨ config.fromNumber = "") →
      (formatPhoneForWhatsApp s).isSome = true →
      sendWhatsAppMessage config (Json.str s) (.resolves m) =
        { success := true, messageSid := some m.sid, status := some m.status })
  ∧ (¬(config.accountSid = "" ∨ config.authToken = "" ∨ config.fromNumber = "") →
      (formatPhoneForWhatsApp s).isSome = true →
      sendWhatsAppMessage config (Json.str s) (.throwsWith msg) =
        { success := false
          error := some (if msg = "" then "Unknown Twilio error" else msg) })
  ∧ (¬(config.accountSid = "" ∨ config.authToken = "" ∨ config.fromNumber = "") →
      formatPhoneForWhatsApp s = none →
      sendWhatsAppMessage config (Json.str s) provider =
        { success := false, error := some "Invalid phone number format" }) := by
  refine ⟨?_, ?_, ?_, ?_⟩
  · intro h
    simp [sendWhatsAppMessage, h]
  · intro h hs
    obtain ⟨w, hw⟩ := Option.isSome_iff_exists.mp hs
    simp [sendWhatsAppMessage, h, hw]
  · intro h hs
    obtain ⟨w, hw⟩ := Option.isSome_iff_exists.mp hs
    simp [sendWhatsAppMessage, h, hw]
  · intro h hn
    simp [sendWhatsAppMessage, h, hn]

/-- C1 witness: the theorem applied at a complete configuration, a concrete
recipient and a resolving provider. -/
theorem c1_witness :
    sendWhatsAppMessage ⟨"AC123", "token", "whatsapp:+14155238886"⟩
      (Json.str "+15551234567") (.resolves ⟨"SM77", "queued"⟩) =
      { success := true, messageSid := some "SM77", status := some "queued" } :=
  (c1_send_behavior ⟨"AC123", "token", "whatsapp:+14155238886"⟩ "+15551234567"
    (.resolves ⟨"SM77", "queued"⟩) ⟨"SM77", "queued"⟩ "unused").2.1
    (by decide) (by decide)

/-! ## C2 -/

/-- C2: generateMessageByEventType dispatches by exact string equality on
the four full event-type constants: the cancel type gives the cancellation
template, the place type the order-placed template, the shipment type the
shipped template whose tracking clause is present exactly when the first
track carries a truthy (non-empty) track_number or number, the save type
with a truthy status/state the status-update template, and every other
input, including the save type without a status, falls back to the
order-placed template. -/
theorem c2_generateMessage_dispatch (eventType : String) (orderData : Json)
    (customerName orderNumber : String) (shipmentData : Json) :
    (eventType = "com.adobe.commerce.observer.sales_order_cancel_after" →
      generateMessageByEventType eventType orderData customerName orderNumber shipmentData =
        "Hi " ++ customerName ++ ", your order #" ++ orderNumber ++
          " has been cancelled. If you have any questions, please contact us.")
  ∧ (eventType = "com.adobe.commerce.observer.sales_order_place_after" →
      generateMessageByEventType eventType orderData customerName orderNumber shipmentData =
        "Hi " ++ customerName ++ ", your order #" ++ orderNumber ++ " for " ++
          jsDisplay (jget orderData "grand_total") ++ " " ++
          jsDisplay (jget orderData "order_currency_code") ++
          " has been confirmed. Thank you for your purchase!")
  ∧ (eventType = "com.adobe.commerce.observer.sales_order_shipment_save_after" →
      ((firstTrackingValue shipmentData).truthy = true →
        generateMessageByEventType eventType orderData customerName orderNumber shipmentData =
          "Hi " ++ customerName ++ ", your order #" ++ orderNumber ++
            " has been shipped! Track your package using tracking number " ++
            jsDisplay (firstTrackingValue shipmentData) ++ ".")
      ∧ ((firstTrackingValue shipmentData).truthy = false →
        generateMessageByEventType eventType orderData customerName orderNumber shipmentData =
          "Hi " ++ customerName ++ ", your order #" ++ orderNumber ++ " has been shipped!"))
  ∧ (eventType = "com.adobe.commerce.observer.sales_order_save_after" →
      (((jsOr (jget orderData "status") (jget orderData "state")).truthy = true →
        generateMessageByEventType eventType orderData customerName orderNumber shipmentData =
          "Hi " ++ customerName ++ ", your order #" ++ orderNumber ++
            " status has been updated to " ++
            jsDisplay (jsOr (jget orderData "status") (jget orderData "state")) ++ ".")
      ∧ ((jsOr (jget orderData "status") (jget orderData "state")).truthy = false →
        generateMessageByEventType eventType orderData customerName orderNumber shipmentData =
          "Hi " ++ customerName ++ ", your order #" ++ orderNumber ++ " for " ++
            jsDisplay (jget orderData "grand_total") ++ " " ++
            jsDisplay (jget orderData "order_currency_code") ++
            " has been confirmed. Thank you for your purchase!")))
  ∧ ((eventType ≠ "com.adobe.commerce.observer.sales_order_cancel_after" ∧
      eventType ≠ "com.adobe.commerce.observer.sales_order_place_after" ∧
      eventType ≠ "com.adobe.commerce.observer.sales_order_shipment_save_after" ∧
      eventType ≠ "com.adobe.commerce.observer.sales_order_save_after") →
      generateMessageByEventType eventType orderData customerName orderNumber shipmentData =
        "Hi " ++ customerName ++ ", your order #" ++ orderNumber ++ " for " ++
          jsDisplay (jget orderData "grand_total") ++ " " ++
          jsDisplay (jget orderData "order_currency_code") ++
          " has been confirmed. Thank you for your purchase!") := by
  refine ⟨?_, ?_, ?_, ?_, ?_⟩
  · intro h
    subst h
    simp [generateMessageByEventType, generateCancellationMessage]
  · intro h
    subst h
    simp [generateMessageByEventType, generateOrderPlacedMessage]
  · intro h
    subst h
    refine ⟨fun ht => ?_, fun ht => ?_⟩ <;>
      simp [generateMessageByEventType, generateShipmentMessage, ht]
  · intro h
    subst h
    refine ⟨fun ht => ?_, fun ht => ?_⟩ <;>
      simp [generateMessageByEventType, generateOrderStatusChangeMessage,
        generateOrderPlacedMessage, ht]
  · intro h
    obtain ⟨h1, h2, h3, h4⟩ := h
    simp [generateMessageByEventType, generateOrderPlacedMessage, h1, h2, h3, h4]

/-- C2 witness: the theorem applied at a concrete cancellation event. -/
theorem c2_witness :
    generateMessageByEventType "com.adobe.commerce.observer.sales_order_cancel_after"
      Json.null "Ann" "7" Json.null =
      "Hi " ++ "Ann" ++ ", your order #" ++ "7" ++
        " has been cancelled. If you have any questions, please contact us." :=
  (c2_generateMessage_dispatch "com.adobe.commerce.observer.sales_order_cancel_after"
    Json.null "Ann" "7" Json.null).1 rfl

/-! ## C4 -/

/-- C4 counterexample: an envelope whose data.value is the empty object, so
that data.value.order is absent, is accepted by extractEventData with the
empty object as the resolved order instead of giving the claimed 400
Missing order data: the emptiness test of the source is JavaScript
truthiness and every object, including the empty one, is truthy. -/
theorem c4_counterexample :
    jget (Json.obj [("value", Json.obj [])]) "value" = Json.obj [] ∧
    jget (jget (Json.obj [("value", Json.obj [])]) "value") "order" = Json.null ∧
    extractEventData { data := Json.obj [("value", Json.obj [])] }
      "com.adobe.commerce.observer.sales_order_place_after" =
      Except.ok (Json.obj [], Json.null) :=
  ⟨rfl, rfl, rfl⟩

/-- C4 amended: for every envelope in which data.value and data.value.order
are both JavaScript-falsy (absent, null, or another falsy primitive),
extractEventData returns a 400 error with message Missing order data, except
that for a shipment event, which then necessarily also lacks
data.value.shipment, it returns 400 Missing shipment data; an envelope whose
data.value is an empty object is accepted, the empty object being truthy,
and whenever the fallback chain resolves a truthy order value no error is
returned. -/
theorem c4_extractEventData_behavior (params : Params) (eventType : String) :
    ((jget params.data "value").truthy = false →
     (jget (jget params.data "value") "order").truthy = false →
      extractEventData params eventType =
        .error (errorResponse 400
          (if jsIncludes eventType "sales_order_shipment_save_after" = true then
            "Missing shipment data" else "Missing order data")))
  ∧ ((extractOrderData params.data
        (if jsIncludes eventType "sales_order_shipment_save_after" = true then
          extractShipmentData params.data else Json.null)
        (jsIncludes eventType "sales_order_shipment_save_after")).truthy = true →
      extractEventData params eventType =
        .ok (extractOrderData params.data
              (if jsIncludes eventType "sales_order_shipment_save_after" = true then
                extractShipmentData params.data else Json.null)
              (jsIncludes eventType "sales_order_shipment_save_after"),
             if jsIncludes eventType "sales_order_shipment_save_after" = true then
               extractShipmentData params.data else Json.null)) := by
  have hnull : (Json.null : Json).truthy = false := rfl
  constructor
  · intro hv ho
    have hship : extractShipmentData params.data = Json.null := by
      unfold extractShipmentData
      rw [jget_of_falsy hv, jsOr_of_falsy hnull]
    have horder : ∀ (sd : Json) (b : Bool), sd.truthy = false →
        extractOrderData params.data sd b = Json.null := by
      intro sd b hsd
      unfold extractOrderData
      rw [if_neg (by simp [hsd])]
      rw [jsOr_of_falsy ho, jsOr_of_falsy hv]
    unfold extractEventData
    cases hshipEv : jsIncludes eventType "sales_order_shipment_save_after" with
    | false => simp [hshipEv, horder Json.null false rfl, hnull]
    | true => simp [hshipEv, hship, horder Json.null true rfl, hnull]
  · intro h
    unfold extractEventData
    cases hshipEv : jsIncludes eventType "sales_order_shipment_save_after" with
    | false =>
      rw [hshipEv] at h
      simp at h
      simp [hshipEv, h]
    | true =>
      rw [hshipEv] at h
      simp at h
      simp [hshipEv, h]

/-- C4 witness: the theorem applied at an envelope with no data at all. -/
theorem c4_witness :
    extractEventData { data := Json.null }
      "com.adobe.commerce.observer.sales_order_place_after" =
      .error (errorResponse 400 "Missing order data") :=
  (c4_extractEventData_behavior { data := Json.null }
    "com.adobe.commerce.observer.sales_order_place_after").1 rfl rfl

/-! ## C5 -/

/-- validateEvent flattened to the three ordered checks of the source: the
structure check, the namespace check on the type, and the allow-list check,
with the first failure short-circuiting and null on full success. -/
lemma validateEvent_eq (p : Params) :
    validateEvent p =
      (if p.type = "" ∨ p.source = "" then
        some (errorResponse 400 "Invalid event structure")
       else if jsIncludes p.type "com.adobe.commerce" = false then
        some (errorResponse 400 "Invalid event source - not a Commerce event")
       else if p.type ∉ ALLOWED_EVENT_TYPES then
        some (errorResponse 400 ("Unauthorized event type: " ++ p.type))
       else none) := by
  unfold validateEvent validateCloudEventStructure validateCommerceEvent validateEventType
  by_cases h1 : p.type = ""
  · simp [h1]
  · by_cases hs : p.source = ""
    · simp [h1, hs]
    · by_cases h2 : jsIncludes p.type "com.adobe.commerce" = true
      · by_cases h3 : p.type ∈ ALLOWED_EVENT_TYPES
        · simp [h1, hs, h2, h3]
        · simp [h1, hs, h2, h3]
      · have h2f : jsIncludes p.type "com.adobe.commerce" = false := by
          simpa using h2
        simp [h1, hs, h2f]

/-- C5 counterexample: a type inside the vendor namespace but outside the
allow-list is rejected with a 400 whose error message carries the offending
type but, contrary to the claim, not the allow-list: none of the four
allowed event types occurs in the returned message (the allow-list appears
only in the logged line). -/
theorem c5_counterexample :
    validateEvent { type := "com.adobe.commerce.observer.order_export"
                    source := "com.adobe.commerce" } =
      some (errorResponse 400
        "Unauthorized event type: com.adobe.commerce.observer.order_export") ∧
    jsIncludes "Unauthorized event type: com.adobe.commerce.observer.order_export"
      "sales_order_place_after" = false ∧
    jsIncludes "Unauthorized event type: com.adobe.commerce.observer.order_export"
      "sales_order_save_after" = false ∧
    jsIncludes "Unauthorized event type: com.adobe.commerce.observer.order_export"
      "sales_order_shipment_save_after" = false ∧
    jsIncludes "Unauthorized event type: com.adobe.commerce.observer.order_export"
      "sales_order_cancel_after" = false := by
  refine ⟨rfl, by decide, by decide, by decide, by decide⟩

/-- C5 amended: validateEvent runs its three checks in strict order with the
first failure short-circuiting: missing (falsy) type or source yields 400
Invalid event structure; a type not containing the vendor namespace yields
400 Invalid event source - not a Commerce event; a type outside the
four-item allow-list yields a 400 whose error message is exactly
Unauthorized event type: followed by the offending type (the allow-list is
only logged, not returned); when all three checks pass the result is null. -/
theorem c5_validateEvent_checks (p : Params) :
    validateEvent p =
      (if p.type = "" ∨ p.source = "" then
        some (errorResponse 400 "Invalid event structure")
       else if jsIncludes p.type "com.adobe.commerce" = false then
        some (errorResponse 400 "Invalid event source - not a Commerce event")
       else if p.type ∉ ALLOWED_EVENT_TYPES then
        some (errorResponse 400 ("Unauthorized event type: " ++ p.type))
       else none) :=
  validateEvent_eq p

/-! ## C8 -/

/-- C8 counterexample: an envelope whose source does not contain the vendor
namespace is nevertheless accepted by validateEvent (the source check of the
code only logs a warning; the namespace requirement is enforced on the type
field instead). -/
theorem c8_counterexample :
    validateEvent { type := "com.adobe.commerce.observer.sales_order_place_after"
                    source := "urn:acme:store" } = none ∧
    jsIncludes "urn:acme:store" "com.adobe.commerce" = false :=
  ⟨rfl, by decide⟩

/-- C8 amended: every envelope accepted by validateEvent has a non-empty
source and a type that contains the vendor-namespace substring and belongs
to the allow-list; the source field itself is not required to contain the
namespace, a mismatch there only producing a warning. -/
theorem c8_accepted_envelope (p : Params) (h : validateEvent p = none) :
    p.source ≠ "" ∧ jsIncludes p.type "com.adobe.commerce" = true ∧
    p.type ∈ ALLOWED_EVENT_TYPES := by
  rw [validateEvent_eq] at h
  split_ifs at h with h1 h2 h3
  all_goals
    first
      | exact Option.noConfusion h
      | (push_neg at h1 h3
         exact ⟨h1.2, by simpa using h2, h3⟩)

/-- C8 witness: the theorem applied at a concrete accepted envelope. -/
theorem c8_witness :
    ("com.adobe.commerce" : String) ≠ "" ∧
    jsIncludes "com.adobe.commerce.observer.sales_order_cancel_after"
      "com.adobe.commerce" = true ∧
    "com.adobe.commerce.observer.sales_order_cancel_after" ∈ ALLOWED_EVENT_TYPES :=
  c8_accepted_envelope
    { type := "com.adobe.commerce.observer.sales_order_cancel_after"
      source := "com.adobe.commerce" } rfl

/-! ## C6 -/

/-- C6: whenever the challenge field of the input is present (truthy), main
echoes it back immediately as a 200 response whose body carries exactly that
challenge, for every other field and every provider behavior, and the
provider call is never reached (second component false); no validation,
extraction or message generation influences the result, which is the same
for all values of the remaining fields. -/
theorem c6_challenge_echo (params : Params) (provider : ProviderOutcome)
    (h : params.challenge ≠ "") :
    main params provider = (.response 200 (.challenge params.challenge), false) := by
  simp [main, h]

/-- C6 witness: the theorem applied at a concrete challenge input whose
other fields would otherwise drive the full pipeline. -/
theorem c6_witness :
    main
      { challenge := "abc123"
        type := "com.adobe.commerce.observer.sales_order_cancel_after"
        source := "com.adobe.commerce" }
      (.throwsWith "network down") =
      (.response 200 (.challenge "abc123"), false) :=
  c6_challenge_echo
    { challenge := "abc123"
      type := "com.adobe.commerce.observer.sales_order_cancel_after"
      source := "com.adobe.commerce" }
    (.throwsWith "network down") (by decide)

/-! ## C9 -/

/-- The send result of the adapter carries an error exactly on failure, and
every carried error message is non-empty. -/
lemma sendWhatsAppMessage_error_inv (config : TwilioConfig) (recipient : Json)
    (provider : ProviderOutcome) :
    ((sendWhatsAppMessage config recipient provider).success = true ↔
      (sendWhatsAppMessage config recipient provider).error = none) ∧
    (∀ e, (sendWhatsAppMessage config recipient provider).error = some e → e ≠ "") := by
  unfold sendWhatsAppMessage
  split_ifs with h1
  · simp
  · cases recipient with
    | str s =>
      cases hf : formatPhoneForWhatsApp s with
      | none => simp [hf]
      | some w =>
        cases provider with
        | resolves m => simp [hf]
        | throwsWith msg =>
          by_cases hm : msg = ""
          · simp [hf, hm]
          · simp [hf, hm]
    | null => simp [Json.truthy]
    | bool b => cases b <;> simp [Json.truthy]
    | num n =>
      by_cases hn : n = 0
      · simp [Json.truthy, hn]
      · simp [Json.truthy, hn]
    | arr elems => simp [Json.truthy]
    | obj fields => simp [Json.truthy]

/-- C9: in every 200 success response built by main (the non-challenge
path), the whatsappError field is present exactly when whatsappSent is
false: the adapter result carries an error on precisely its failure
branches, every such error message is non-empty (hence truthy), and the
orchestrator spreads whatsappError into the body exactly when the error is
truthy. -/
theorem c9_success_body_invariant (params : Params) (provider : ProviderOutcome)
    (sb : SuccessBody) (called : Bool)
    (h : main params provider = (.response 200 (.success sb), called)) :
    (sb.whatsappError.isSome = true ↔ sb.whatsappSent = false) := by
  simp only [main] at h
  split_ifs at h with hc
  · simp at h
  · split at h
    · simp at h
    · split at h
      · simp at h
      · rename_i orderData shipmentData heq
        split_ifs at h with hp
        · simp at h
        · simp only [Prod.mk.injEq, MainResult.response.injEq, MainBody.success.injEq] at h
          obtain ⟨⟨-, hbody⟩, -⟩ := h
          subst hbody
          obtain ⟨hiff, hne⟩ := sendWhatsAppMessage_error_inv
            ⟨params.TWILIO_ACCOUNT_SID, params.TWILIO_AUTH_TOKEN, params.TWILIO_WHATSAPP_FROM⟩
            (extractPhoneNumberFromOrder orderData) provider
          cases hre : (sendWhatsAppMessage
              ⟨params.TWILIO_ACCOUNT_SID, params.TWILIO_AUTH_TOKEN, params.TWILIO_WHATSAPP_FROM⟩
              (extractPhoneNumberFromOrder orderData) provider).error with
          | none =>
            have hsucc := hiff.mpr hre
            simp [hre, hsucc]
          | some e =>
            have he := hne e hre
            have hsucc : (sendWhatsAppMessage
                ⟨params.TWILIO_ACCOUNT_SID, params.TWILIO_AUTH_TOKEN, params.TWILIO_WHATSAPP_FROM⟩
                (extractPhoneNumberFromOrder orderData) provider).success = false := by
              cases hs : (sendWhatsAppMessage
                  ⟨params.TWILIO_ACCOUNT_SID, params.TWILIO_AUTH_TOKEN, params.TWILIO_WHATSAPP_FROM⟩
                  (extractPhoneNumberFromOrder orderData) provider).success
              · rfl
              · rw [hiff.mp hs] at hre
                exact Option.noConfusion hre
            simp [hre, hsucc, he]

/-- C9 witness: the theorem applied at a concrete order-placed event with
complete Twilio configuration and a resolving provider; the computed success
body has whatsappSent true and no whatsappError. -/
theorem c9_witness :
    (({ success := true
        message := "Order notification processed"
        orderNumber := Json.str "000000008"
        customerPhone := Json.str "1234567890"
        whatsappSent := true
        whatsappError := none } : SuccessBody).whatsappError.isSome = true ↔
     ({ success := true
        message := "Order notification processed"
        orderNumber := Json.str "000000008"
        customerPhone := Json.str "1234567890"
        whatsappSent := true
        whatsappError := none } : SuccessBody).whatsappSent = false) :=
  c9_success_body_invariant
    { type := "com.adobe.commerce.observer.sales_order_place_after"
      source := "com.adobe.commerce"
      data := Json.obj [("value", Json.obj [("order", Json.obj
        [ ("increment_id", Json.str "000000008")
        , ("customer_firstname", Json.str "Test")
        , ("customer_lastname", Json.str "Customer")
        , ("grand_total", Json.num 100)
        , ("order_currency_code", Json.str "USD")
        , ("addresses", Json.arr [Json.obj [("telephone", Json.str "1234567890")]]) ])])]
      TWILIO_ACCOUNT_SID := "sid"
      TWILIO_AUTH_TOKEN := "tok"
      TWILIO_WHATSAPP_FROM := "whatsapp:+1234567890" }
    (.resolves ⟨"SM123456", "queued"⟩)
    { success := true
      message := "Order notification processed"
      orderNumber := Json.str "000000008"
      customerPhone := Json.str "1234567890"
      whatsappSent := true
      whatsappError := none }
    true rfl

end OrderNotif
